import Mathlib

/-!
Verification of the Digital_Drawing ink-processing pipeline.

Shallow embedding of the Python sources under `src/sys_dev/`:
Python floats are modelled as rationals (`ℚ`); irrational primitives
(`math.sqrt`, `math.atan2`) are abstracted as function parameters
`sqrtQ`, `atan2Q` so every statement quantifies over their
interpretation; dataclasses become structures; mutation becomes
functional state update.  Two `StrokeDetector` revisions exist in the
repository and both are embedded: `Phase2/StrokeDetector.py`
(namespace `P2`) and `Phase2_divscreen_color/StrokeDetector.py`
(namespace `Div`).
-/

namespace DigitalDrawing

/-- `StrokeState` enum from `DigitalInkDataStructure.py`. -/
inductive StrokeState where
  | IDLE
  | STARTING
  | ACTIVE
  | ENDING
  | COMPLETED
deriving DecidableEq, Repr, Inhabited

/-- `EventType` enum from `DigitalInkDataStructure.py`. -/
inductive EventType where
  | PEN_DOWN
  | PEN_MOVE
  | PEN_UP
  | PEN_HOVER
  | STROKE_START
  | STROKE_END
  | PAUSE_DETECTED
  | RESUME_DETECTED
deriving DecidableEq, Repr, Inhabited

/-- `RawInkPoint` dataclass from `DigitalInkDataStructure.py`
(`device_id`/`button_state` carried but unused by the modelled code). -/
structure RawInkPoint where
  x : ℚ
  y : ℚ
  pressure : ℚ
  tilt_x : ℚ
  tilt_y : ℚ
  twist : ℚ
  timestamp : ℚ
  device_id : String
  button_state : ℤ
deriving DecidableEq, Repr, Inhabited

/-- `ProcessedInkPoint` dataclass from `DigitalInkDataStructure.py`.
The dataclass has no `event_type` field; the divscreen detector probes
for one with `hasattr`, so we carry `event_type : Option EventType`,
where `none` models the attribute being absent (as it is on every point
the pipeline constructs). -/
structure ProcessedInkPoint where
  x : ℚ
  y : ℚ
  pressure : ℚ
  tilt_x : ℚ
  tilt_y : ℚ
  twist : ℚ
  timestamp : ℚ
  velocity : ℚ
  acceleration : ℚ
  direction : ℚ
  curvature : ℚ
  stroke_id : ℤ
  point_index : ℤ
  distance_from_start : ℚ
  confidence : ℚ
  is_interpolated : Bool
  event_type : Option EventType := none
deriving DecidableEq, Repr, Inhabited

/-- The slice of `Phase2/Config.py`'s `ProcessingConfig` used by the
modelled code.  `canvas_width`/`canvas_height` are not attributes of the
Python config class, so `validate_stroke`'s `getattr(..., 800)` /
`getattr(..., 600)` always yields the defaults; we keep them as fields
holding the resolved values. -/
structure ProcessingConfig where
  pressure_threshold : ℚ := 5/100
  smoothing_enabled : Bool := true
  smoothing_window_size : ℕ := 5
  max_point_distance : ℚ := 50
  max_velocity_jump : ℚ := 1000
  max_pressure_jump : ℚ := 1/2
  min_time_delta : ℚ := 1/1000000
  max_time_delta : ℚ := 1/10
  min_stroke_length : ℚ := 5
  canvas_width : ℚ := 800
  canvas_height : ℚ := 600
deriving DecidableEq, Repr, Inhabited

/-- `detection_stats` dict of both `StrokeDetector` revisions. -/
structure DetectionStats where
  strokes_detected : ℕ
  strokes_validated : ℕ
  strokes_rejected : ℕ
  total_points : ℕ
deriving DecidableEq, Repr, Inhabited

/-- Fresh statistics, as set by `__init__` / `reset_statistics`. -/
def DetectionStats.init : DetectionStats :=
  { strokes_detected := 0, strokes_validated := 0
    strokes_rejected := 0, total_points := 0 }

/-- Pixel length of one stroke segment, `StrokeDetector.validate_stroke`
lines: normalized coordinates are scaled by the canvas and the Euclidean
distance is taken (`math.sqrt` abstracted as `sqrtQ`). -/
def segmentPixelLength (sqrtQ : ℚ → ℚ) (cfg : ProcessingConfig)
    (a b : ProcessedInkPoint) : ℚ :=
  let x1 := a.x * cfg.canvas_width
  let y1 := a.y * cfg.canvas_height
  let x2 := b.x * cfg.canvas_width
  let y2 := b.y * cfg.canvas_height
  let dx := x2 - x1
  let dy := y2 - y1
  sqrtQ (dx * dx + dy * dy)

/-- `total_length` accumulation loop of `validate_stroke`. -/
def strokePixelLength (sqrtQ : ℚ → ℚ) (cfg : ProcessingConfig) :
    List ProcessedInkPoint → ℚ
  | [] => 0
  | [_] => 0
  | a :: b :: rest =>
      segmentPixelLength sqrtQ cfg a b + strokePixelLength sqrtQ cfg (b :: rest)

/-- `StrokeDetector.validate_stroke` (identical in both revisions):
at least 2 points and total pixel length at least `min_stroke_length`. -/
def validate_stroke (sqrtQ : ℚ → ℚ) (cfg : ProcessingConfig)
    (points : List ProcessedInkPoint) : Bool :=
  if points.length < 2 then false
  else if strokePixelLength sqrtQ cfg points < cfg.min_stroke_length then false
  else true

/-- Python `point.stroke_id = self.current_stroke_id` before buffering. -/
def setStrokeId (p : ProcessedInkPoint) (i : ℤ) : ProcessedInkPoint :=
  { p with stroke_id := i }

namespace P2

/-- Completed-stroke dict appended by `Phase2/StrokeDetector.py`
`finalize_current_stroke`; note it carries no validity flag. -/
structure StrokeRecord where
  stroke_id : ℤ
  points : List ProcessedInkPoint
  start_time : ℚ
  end_time : ℚ
  num_points : ℕ
deriving DecidableEq, Repr, Inhabited

/-- Mutable state of `Phase2/StrokeDetector.py`. -/
structure StrokeDetector where
  config : ProcessingConfig
  current_stroke_points : List ProcessedInkPoint
  completed_strokes : List StrokeRecord
  current_stroke_id : ℤ
  current_state : StrokeState
  detection_stats : DetectionStats
deriving DecidableEq, Repr, Inhabited

/-- Detector state after `__init__` / `reset_state`. -/
def StrokeDetector.init (cfg : ProcessingConfig) : StrokeDetector :=
  { config := cfg, current_stroke_points := [], completed_strokes := []
    current_stroke_id := 0, current_state := .IDLE
    detection_stats := .init }

/-- `Phase2/StrokeDetector.finalize_current_stroke` (lines 102-138):
empty buffer is a no-op; a validated buffer is appended to
`completed_strokes` and the id counter incremented; a rejected buffer is
dropped but the id counter is still incremented; the buffer is cleared. -/
def StrokeDetector.finalize_current_stroke (sqrtQ : ℚ → ℚ)
    (s : StrokeDetector) : StrokeDetector :=
  if s.current_stroke_points = [] then s
  else
    let pts := s.current_stroke_points
    if validate_stroke sqrtQ s.config pts then
      { s with
        completed_strokes := s.completed_strokes ++
          [{ stroke_id := s.current_stroke_id, points := pts
             start_time := pts.headI.timestamp
             end_time := pts.getLastI.timestamp
             num_points := pts.length }]
        detection_stats :=
          { s.detection_stats with
            strokes_validated := s.detection_stats.strokes_validated + 1 }
        current_stroke_id := s.current_stroke_id + 1
        current_stroke_points := [] }
    else
      { s with
        detection_stats :=
          { s.detection_stats with
            strokes_rejected := s.detection_stats.strokes_rejected + 1 }
        current_stroke_id := s.current_stroke_id + 1
        current_stroke_points := [] }

/-- `Phase2/StrokeDetector.add_point` (lines 58-99).  Pressure above zero
starts or extends the current stroke; pressure zero finalizes an active
non-empty stroke and returns to `IDLE`, otherwise is skipped. -/
def StrokeDetector.add_point (sqrtQ : ℚ → ℚ) (s : StrokeDetector)
    (p : ProcessedInkPoint) : StrokeDetector :=
  if 0 < p.pressure then
    if s.current_state = .IDLE then
      { s with
        current_state := .ACTIVE
        current_stroke_points := [setStrokeId p s.current_stroke_id]
        detection_stats :=
          { s.detection_stats with
            strokes_detected := s.detection_stats.strokes_detected + 1 } }
    else
      { s with
        current_stroke_points :=
          s.current_stroke_points ++ [setStrokeId p s.current_stroke_id]
        detection_stats :=
          { s.detection_stats with
            total_points := s.detection_stats.total_points + 1 } }
  else
    if s.current_state = .ACTIVE ∧ s.current_stroke_points ≠ [] then
      { s.finalize_current_stroke sqrtQ with current_state := .IDLE }
    else s

/-- `Phase2/StrokeDetector.get_completed_strokes` (lines 140-153):
returns a copy of the completed list and clears it. -/
def StrokeDetector.get_completed_strokes (s : StrokeDetector) :
    List StrokeRecord × StrokeDetector :=
  (s.completed_strokes, { s with completed_strokes := [] })

/-- Feeding a whole point sequence through `add_point` from a fresh
detector. -/
def runDetector (sqrtQ : ℚ → ℚ) (cfg : ProcessingConfig)
    (pts : List ProcessedInkPoint) : StrokeDetector :=
  pts.foldl (fun s p => s.add_point sqrtQ p) (StrokeDetector.init cfg)

/-- Stroke ids of the completed strokes, in completion order. -/
def StrokeDetector.completedIds (s : StrokeDetector) : List ℤ :=
  s.completed_strokes.map (·.stroke_id)

end P2

namespace Div

/-- Completed-stroke dict appended by
`Phase2_divscreen_color/StrokeDetector.py` `finalize_current_stroke`;
unlike the Phase2 revision it carries an `is_valid` flag. -/
structure StrokeRecord where
  stroke_id : ℤ
  points : List ProcessedInkPoint
  start_time : ℚ
  end_time : ℚ
  num_points : ℕ
  is_valid : Bool
deriving DecidableEq, Repr, Inhabited

/-- Mutable state of `Phase2_divscreen_color/StrokeDetector.py`. -/
structure StrokeDetector where
  config : ProcessingConfig
  current_stroke_points : List ProcessedInkPoint
  completed_strokes : List StrokeRecord
  current_stroke_id : ℤ
  current_state : StrokeState
  detection_stats : DetectionStats
deriving DecidableEq, Repr, Inhabited

/-- Detector state after `__init__` / `reset_state`. -/
def StrokeDetector.init (cfg : ProcessingConfig) : StrokeDetector :=
  { config := cfg, current_stroke_points := [], completed_strokes := []
    current_stroke_id := 0, current_state := .IDLE
    detection_stats := .init }

/-- A one-point buffer whose point carries a dynamically injected
`event_type == STROKE_END` attribute: the ghost-end-event filter of the
divscreen `finalize_current_stroke` (`hasattr` probe modelled by the
`Option` being `some`). -/
def ghostBuffer (pts : List ProcessedInkPoint) : Prop :=
  pts.length = 1 ∧ pts.headI.event_type = some EventType.STROKE_END

instance (pts : List ProcessedInkPoint) : Decidable (ghostBuffer pts) := by
  unfold ghostBuffer; infer_instance

/-- `Phase2_divscreen_color/StrokeDetector.finalize_current_stroke`
(lines 143-204): empty buffer only resets the state; a single-point
ghost end-event buffer is discarded without consuming a stroke id;
otherwise the stroke is appended to `completed_strokes` regardless of
validity, tagged `is_valid`, the id counter is incremented and the
state reset to `IDLE`. -/
def StrokeDetector.finalize_current_stroke (sqrtQ : ℚ → ℚ)
    (s : StrokeDetector) : StrokeDetector :=
  if s.current_stroke_points = [] then { s with current_state := .IDLE }
  else
    let pts := s.current_stroke_points
    if ghostBuffer pts then
      { s with
        detection_stats :=
          { s.detection_stats with
            strokes_rejected := s.detection_stats.strokes_rejected + 1 }
        current_stroke_points := []
        current_state := .IDLE }
    else
      let is_valid := validate_stroke sqrtQ s.config pts
      { s with
        completed_strokes := s.completed_strokes ++
          [{ stroke_id := s.current_stroke_id, points := pts
             start_time := pts.headI.timestamp
             end_time := pts.getLastI.timestamp
             num_points := pts.length
             is_valid := is_valid }]
        detection_stats :=
          if is_valid then
            { s.detection_stats with
              strokes_validated := s.detection_stats.strokes_validated + 1 }
          else
            { s.detection_stats with
              strokes_rejected := s.detection_stats.strokes_rejected + 1 }
        current_stroke_id := s.current_stroke_id + 1
        current_stroke_points := []
        current_state := .IDLE }

/-- Start a fresh stroke with `p` as its only point (the three
structurally identical start-new-stroke blocks of the divscreen
`add_point`). -/
def StrokeDetector.startStroke (s : StrokeDetector)
    (p : ProcessedInkPoint) : StrokeDetector :=
  { s with
    current_state := .ACTIVE
    current_stroke_points := [setStrokeId p s.current_stroke_id]
    detection_stats :=
      { s.detection_stats with
        strokes_detected := s.detection_stats.strokes_detected + 1 } }

/-- The `self.current_state == ACTIVE and not self.current_stroke_points`
consistency reset at the top of the divscreen `add_point` pressure branch. -/
def StrokeDetector.consistencyReset (s : StrokeDetector) : StrokeDetector :=
  if s.current_state = .ACTIVE ∧ s.current_stroke_points = [] then
    { s with current_state := .IDLE }
  else s

/-- Pressure-positive body of the divscreen `add_point` after the
consistency reset.  Python's `elif self.current_stroke_points:` (list
truthiness) and its trailing `else` are rendered with the branches in
the opposite order, testing `= []` first. -/
def StrokeDetector.addPointPressed (sqrtQ : ℚ → ℚ) (s : StrokeDetector)
    (p : ProcessedInkPoint) : StrokeDetector :=
  if s.current_state = .IDLE then s.startStroke p
  else if s.current_stroke_points = [] then s.startStroke p
  else if 1/2 < p.timestamp - s.current_stroke_points.getLastI.timestamp then
    (s.finalize_current_stroke sqrtQ).startStroke p
  else
    { s with
      current_stroke_points :=
        s.current_stroke_points ++ [setStrokeId p s.current_stroke_id]
      detection_stats :=
        { s.detection_stats with
          total_points := s.detection_stats.total_points + 1 } }

/-- `Phase2_divscreen_color/StrokeDetector.add_point` (lines 60-140).
On pressure above zero: an `ACTIVE` state with an empty buffer is first
reset to `IDLE` (consistency check); `IDLE` starts a new stroke; an
inter-point time gap above 0.5 s finalizes the current buffer and starts
a new stroke with the incoming point; otherwise the point is appended.
On pressure zero an active non-empty stroke is finalized. -/
def StrokeDetector.add_point (sqrtQ : ℚ → ℚ) (s : StrokeDetector)
    (p : ProcessedInkPoint) : StrokeDetector :=
  if 0 < p.pressure then
    StrokeDetector.addPointPressed sqrtQ s.consistencyReset p
  else
    if s.current_state = .ACTIVE ∧ s.current_stroke_points ≠ [] then
      { s.finalize_current_stroke sqrtQ with current_state := .IDLE }
    else s

/-- `Phase2_divscreen_color/StrokeDetector.get_completed_strokes`
(lines 234-247): returns a copy of the completed list and clears it. -/
def StrokeDetector.get_completed_strokes (s : StrokeDetector) :
    List StrokeRecord × StrokeDetector :=
  (s.completed_strokes, { s with completed_strokes := [] })

/-- Feeding a whole point sequence through `add_point` from a fresh
detector. -/
def runDetector (sqrtQ : ℚ → ℚ) (cfg : ProcessingConfig)
    (pts : List ProcessedInkPoint) : StrokeDetector :=
  pts.foldl (fun s p => s.add_point sqrtQ p) (StrokeDetector.init cfg)

/-- Stroke ids of the completed strokes, in completion order. -/
def StrokeDetector.completedIds (s : StrokeDetector) : List ℤ :=
  s.completed_strokes.map (·.stroke_id)

end Div

/-! ### Stroke-id monotonicity invariant (both detector revisions) -/

/-- Completed stroke ids are pairwise increasing and all below the
current id counter (Phase2 revision). -/
def P2.Inv (s : P2.StrokeDetector) : Prop :=
  (s.completed_strokes.Pairwise fun a b => a.stroke_id < b.stroke_id) ∧
  ∀ r ∈ s.completed_strokes, r.stroke_id < s.current_stroke_id

/-- Completed stroke ids are pairwise increasing and all below the
current id counter (divscreen revision). -/
def Div.Inv (s : Div.StrokeDetector) : Prop :=
  (s.completed_strokes.Pairwise fun a b => a.stroke_id < b.stroke_id) ∧
  ∀ r ∈ s.completed_strokes, r.stroke_id < s.current_stroke_id

lemma P2Inv_finalize (sqrtQ : ℚ → ℚ) {s : P2.StrokeDetector}
    (h : P2.Inv s) : P2.Inv (s.finalize_current_stroke sqrtQ) := by
  unfold P2.StrokeDetector.finalize_current_stroke
  by_cases hemp : s.current_stroke_points = []
  · simpa [hemp] using h
  · by_cases hv : validate_stroke sqrtQ s.config s.current_stroke_points
    · simp only [hemp, if_false, hv, if_true, P2.Inv, List.pairwise_append,
        List.pairwise_singleton, List.mem_append, List.mem_singleton]
      refine ⟨⟨h.1, trivial, ?_⟩, ?_⟩
      · intro a ha b hb
        obtain rfl : b = _ := by simpa using hb
        exact h.2 a ha
      · rintro r (hr | rfl)
        · exact lt_trans (h.2 r hr) (lt_add_one _)
        · exact lt_add_one _
    · simp only [hemp, if_false, hv, if_true, P2.Inv]
      exact ⟨h.1, fun r hr => lt_trans (h.2 r hr) (lt_add_one _)⟩

lemma P2Inv_add (sqrtQ : ℚ → ℚ) {s : P2.StrokeDetector}
    (h : P2.Inv s) (p : ProcessedInkPoint) :
    P2.Inv (s.add_point sqrtQ p) := by
  unfold P2.StrokeDetector.add_point
  by_cases hp : 0 < p.pressure
  · by_cases hst : s.current_state = StrokeState.IDLE <;>
      simp only [hp, if_true, hst, if_false] <;> exact h
  · simp only [hp, if_false]
    by_cases hc : s.current_state = StrokeState.ACTIVE ∧
        s.current_stroke_points ≠ []
    · simpa [hc] using (P2Inv_finalize sqrtQ h)
    · simpa [hc] using h

lemma P2Inv_run (sqrtQ : ℚ → ℚ) (cfg : ProcessingConfig)
    (pts : List ProcessedInkPoint) : P2.Inv (P2.runDetector sqrtQ cfg pts) := by
  have hinit : P2.Inv (P2.StrokeDetector.init cfg) := by
    constructor <;> simp [P2.StrokeDetector.init]
  unfold P2.runDetector
  generalize P2.StrokeDetector.init cfg = s0 at hinit ⊢
  induction pts generalizing s0 with
  | nil => exact hinit
  | cons p rest ih => exact ih _ (P2Inv_add sqrtQ hinit p)

lemma DivInv_finalize (sqrtQ : ℚ → ℚ) {s : Div.StrokeDetector}
    (h : Div.Inv s) : Div.Inv (s.finalize_current_stroke sqrtQ) := by
  unfold Div.StrokeDetector.finalize_current_stroke
  by_cases hemp : s.current_stroke_points = []
  · simpa [hemp] using h
  · by_cases hg : Div.ghostBuffer s.current_stroke_points
    · simp only [hemp, if_false, hg, if_true]
      exact h
    · simp only [hemp, if_false, hg, if_true, Div.Inv, List.pairwise_append,
        List.pairwise_singleton]
      refine ⟨⟨h.1, trivial, ?_⟩, ?_⟩
      · intro a ha b hb
        obtain rfl : b = _ := by simpa using hb
        exact h.2 a ha
      · intro r hr
        rcases List.mem_append.mp hr with hr | hr
        · exact lt_trans (h.2 r hr) (lt_add_one _)
        · obtain rfl : r = _ := by simpa using hr
          exact lt_add_one _

lemma DivInv_startStroke {s : Div.StrokeDetector} (h : Div.Inv s)
    (p : ProcessedInkPoint) : Div.Inv (s.startStroke p) := h

lemma DivInv_consistencyReset {s : Div.StrokeDetector} (h : Div.Inv s) :
    Div.Inv s.consistencyReset := by
  unfold Div.StrokeDetector.consistencyReset
  split <;> exact h

lemma DivInv_addPressed (sqrtQ : ℚ → ℚ) {s : Div.StrokeDetector}
    (h : Div.Inv s) (p : ProcessedInkPoint) :
    Div.Inv (Div.StrokeDetector.addPointPressed sqrtQ s p) := by
  unfold Div.StrokeDetector.addPointPressed
  split
  · exact DivInv_startStroke h p
  · split
    · exact DivInv_startStroke h p
    · split
      · exact DivInv_startStroke (DivInv_finalize sqrtQ h) p
      · exact h

lemma DivInv_add (sqrtQ : ℚ → ℚ) {s : Div.StrokeDetector}
    (h : Div.Inv s) (p : ProcessedInkPoint) :
    Div.Inv (s.add_point sqrtQ p) := by
  unfold Div.StrokeDetector.add_point
  split
  · exact DivInv_addPressed sqrtQ (DivInv_consistencyReset h) p
  · split
    · exact DivInv_finalize sqrtQ h
    · exact h

lemma DivInv_run (sqrtQ : ℚ → ℚ) (cfg : ProcessingConfig)
    (pts : List ProcessedInkPoint) :
    Div.Inv (Div.runDetector sqrtQ cfg pts) := by
  have hinit : Div.Inv (Div.StrokeDetector.init cfg) := by
    constructor <;> simp [Div.StrokeDetector.init]
  unfold Div.runDetector
  generalize Div.StrokeDetector.init cfg = s0 at hinit ⊢
  induction pts generalizing s0 with
  | nil => exact hinit
  | cons p rest ih => exact ih _ (DivInv_add sqrtQ hinit p)

/-! ### Sample inputs used by witness theorems -/

/-- A `ProcessedInkPoint` as the pipeline constructs it: only position,
pressure and timestamp vary, every other field at its creation value and
no injected `event_type` attribute. -/
def mkPoint (x y pr ts : ℚ) : ProcessedInkPoint :=
  { x := x, y := y, pressure := pr, tilt_x := 0, tilt_y := 0, twist := 0
    timestamp := ts, velocity := 0, acceleration := 0, direction := 0
    curvature := 0, stroke_id := -1, point_index := -1
    distance_from_start := 0, confidence := 1, is_interpolated := false
    event_type := none }

/-- A degenerate interpretation of `math.sqrt` used to instantiate
witnesses (all theorems hold for every interpretation). -/
def sqrtZero : ℚ → ℚ := fun _ => 0

/-- A short synthetic input stream: one two-point stroke ended by a
pressure-zero sample. -/
def samplePts : List ProcessedInkPoint :=
  [mkPoint 0 0 (1/2) 0, mkPoint (1/10) (1/10) (1/2) (1/100),
   mkPoint 0 0 0 (2/100)]

/-- A Phase2 detector holding one in-flight point. -/
def sampleS2 : P2.StrokeDetector :=
  { P2.StrokeDetector.init {} with
    current_stroke_points := [mkPoint 0 0 (1/2) 0]
    current_state := .ACTIVE }

/-- A divscreen detector holding one in-flight point. -/
def sampleSd : Div.StrokeDetector :=
  { Div.StrokeDetector.init {} with
    current_stroke_points := [mkPoint 0 0 (1/2) 0]
    current_state := .ACTIVE }

/-- A buffer of pipeline-created points never satisfies the divscreen
ghost-end-event filter, because `ProcessedInkPoint` has no `event_type`
attribute unless one is injected dynamically. -/
lemma not_ghost_of_event_none {pts : List ProcessedInkPoint}
    (h : ∀ q ∈ pts, q.event_type = none) : ¬ Div.ghostBuffer pts := by
  rintro ⟨hlen, hev⟩
  cases pts with
  | nil => simp at hlen
  | cons a t =>
    have ha := h a (List.mem_cons_self a t)
    simp only [List.headI] at hev
    rw [ha] at hev
    exact Option.noConfusion hev

/-! ### Claim theorems -/

/-- C1: for every point sequence fed to either `StrokeDetector`
revision, the stroke ids of the strokes produced by
`finalize_current_stroke` are strictly increasing and never reassigned,
and the stroke-id counter is incremented on every finalize of a
non-empty buffer whether or not `validate_stroke` accepts it (for the
divscreen revision, for every buffer of pipeline-created points, i.e.
points without a dynamically injected `event_type` attribute). -/
theorem C1_stroke_ids_strictly_increasing (sqrtQ : ℚ → ℚ)
    (cfg : ProcessingConfig) (pts : List ProcessedInkPoint)
    (s2 : P2.StrokeDetector) (sd : Div.StrokeDetector)
    (h2 : s2.current_stroke_points ≠ [])
    (hd : sd.current_stroke_points ≠ [])
    (hattr : ∀ q ∈ sd.current_stroke_points, q.event_type = none) :
    List.Chain' (· < ·) (P2.runDetector sqrtQ cfg pts).completedIds ∧
    (P2.runDetector sqrtQ cfg pts).completedIds.Nodup ∧
    List.Chain' (· < ·) (Div.runDetector sqrtQ cfg pts).completedIds ∧
    (Div.runDetector sqrtQ cfg pts).completedIds.Nodup ∧
    (s2.finalize_current_stroke sqrtQ).current_stroke_id =
      s2.current_stroke_id + 1 ∧
    (sd.finalize_current_stroke sqrtQ).current_stroke_id =
      sd.current_stroke_id + 1 := by
  have hinv2 := P2Inv_run sqrtQ cfg pts
  have hinvd := DivInv_run sqrtQ cfg pts
  have hpw2 : List.Pairwise (· < ·)
      (P2.runDetector sqrtQ cfg pts).completedIds :=
    List.pairwise_map.mpr hinv2.1
  have hpwd : List.Pairwise (· < ·)
      (Div.runDetector sqrtQ cfg pts).completedIds :=
    List.pairwise_map.mpr hinvd.1
  refine ⟨hpw2.chain', hpw2.imp fun hab => ne_of_lt hab,
    hpwd.chain', hpwd.imp fun hab => ne_of_lt hab, ?_, ?_⟩
  · unfold P2.StrokeDetector.finalize_current_stroke
    rw [if_neg h2]
    cases hv : validate_stroke sqrtQ s2.config s2.current_stroke_points <;>
      simp [hv]
  · unfold Div.StrokeDetector.finalize_current_stroke
    rw [if_neg hd, if_neg (not_ghost_of_event_none hattr)]

/-- Witness for C1 at concrete inputs. -/
theorem C1_stroke_ids_strictly_increasing_witness :
    (sampleS2.current_stroke_points ≠ []) ∧
    (sampleSd.current_stroke_points ≠ []) ∧
    (∀ q ∈ sampleSd.current_stroke_points, q.event_type = none) ∧
    (List.Chain' (· < ·) (P2.runDetector sqrtZero {} samplePts).completedIds ∧
     (P2.runDetector sqrtZero {} samplePts).completedIds.Nodup ∧
     List.Chain' (· < ·) (Div.runDetector sqrtZero {} samplePts).completedIds ∧
     (Div.runDetector sqrtZero {} samplePts).completedIds.Nodup ∧
     (sampleS2.finalize_current_stroke sqrtZero).current_stroke_id =
       sampleS2.current_stroke_id + 1 ∧
     (sampleSd.finalize_current_stroke sqrtZero).current_stroke_id =
       sampleSd.current_stroke_id + 1) :=
  ⟨by decide, by decide, by decide,
   C1_stroke_ids_strictly_increasing sqrtZero {} samplePts sampleS2 sampleSd
     (by decide) (by decide) (by decide)⟩

/-- C4: a `pressure == 0` point received while either detector revision
is `IDLE` is a complete no-op: the whole detector state, including the
stroke-id counter and the completed-stroke buffer, is unchanged. -/
theorem C4_idle_zero_pressure_noop (sqrtQ : ℚ → ℚ)
    (s2 : P2.StrokeDetector) (sd : Div.StrokeDetector)
    (p : ProcessedInkPoint) (hp : p.pressure = 0)
    (h2 : s2.current_state = .IDLE) (hd : sd.current_state = .IDLE) :
    s2.add_point sqrtQ p = s2 ∧ sd.add_point sqrtQ p = sd := by
  have hnp : ¬ (0 < p.pressure) := by rw [hp]; exact lt_irrefl 0
  constructor
  · unfold P2.StrokeDetector.add_point
    rw [if_neg hnp, if_neg]
    rintro ⟨hact, -⟩
    rw [h2] at hact
    exact StrokeState.noConfusion hact
  · unfold Div.StrokeDetector.add_point
    rw [if_neg hnp, if_neg]
    rintro ⟨hact, -⟩
    rw [hd] at hact
    exact StrokeState.noConfusion hact

/-- Witness for C4 at concrete inputs. -/
theorem C4_idle_zero_pressure_noop_witness :
    ((mkPoint 0 0 0 0).pressure = 0) ∧
    ((P2.StrokeDetector.init {}).current_state = .IDLE) ∧
    ((Div.StrokeDetector.init {}).current_state = .IDLE) ∧
    ((P2.StrokeDetector.init {}).add_point sqrtZero (mkPoint 0 0 0 0) =
       P2.StrokeDetector.init {} ∧
     (Div.StrokeDetector.init {}).add_point sqrtZero (mkPoint 0 0 0 0) =
       Div.StrokeDetector.init {}) :=
  ⟨by decide, by decide, by decide,
   C4_idle_zero_pressure_noop sqrtZero (P2.StrokeDetector.init {})
     (Div.StrokeDetector.init {}) (mkPoint 0 0 0 0)
     (by decide) (by decide) (by decide)⟩

/-- C10: `get_completed_strokes` is a destructive read in both detector
revisions: it returns exactly the accumulated completed strokes, an
immediately repeated call returns the empty list, and no other detector
field is touched. -/
theorem C10_get_completed_strokes_destructive
    (s2 : P2.StrokeDetector) (sd : Div.StrokeDetector) :
    s2.get_completed_strokes.1 = s2.completed_strokes ∧
    s2.get_completed_strokes.2.get_completed_strokes.1 = [] ∧
    s2.get_completed_strokes.2.current_stroke_id = s2.current_stroke_id ∧
    s2.get_completed_strokes.2.current_stroke_points =
      s2.current_stroke_points ∧
    s2.get_completed_strokes.2.current_state = s2.current_state ∧
    sd.get_completed_strokes.1 = sd.completed_strokes ∧
    sd.get_completed_strokes.2.get_completed_strokes.1 = [] ∧
    sd.get_completed_strokes.2.current_stroke_id = sd.current_stroke_id ∧
    sd.get_completed_strokes.2.current_stroke_points =
      sd.current_stroke_points ∧
    sd.get_completed_strokes.2.current_state = sd.current_state :=
  ⟨rfl, rfl, rfl, rfl, rfl, rfl, rfl, rfl, rfl, rfl⟩

/-- C2 counterexample: the Phase2 `finalize_current_stroke`, applied to
a non-empty one-point buffer (which `validate_stroke` rejects), leaves
`completed_strokes` empty — the rejected stroke is silently dropped
(and the Phase2 record type carries no validity flag at all), refuting
the claim that every non-empty buffer is pushed regardless of
validity. -/
theorem C2_counterexample :
    sampleS2.current_stroke_points ≠ [] ∧
    validate_stroke sqrtZero sampleS2.config
      sampleS2.current_stroke_points = false ∧
    (sampleS2.finalize_current_stroke sqrtZero).completed_strokes = [] ∧
    (sampleS2.finalize_current_stroke
      sqrtZero).detection_stats.strokes_rejected = 1 := by
  decide

/-- C2 amended: only the divscreen revision pushes every non-empty,
non-ghost buffer into `completed_strokes` regardless of validity,
tagging the record with `is_valid`; the Phase2 revision pushes only
strokes accepted by `validate_stroke` and silently drops rejected ones
(still consuming their id). -/
theorem C2_push_regardless_of_validity (sqrtQ : ℚ → ℚ)
    (s2 : P2.StrokeDetector) (sd : Div.StrokeDetector)
    (h2 : s2.current_stroke_points ≠ [])
    (hd : sd.current_stroke_points ≠ [])
    (hattr : ∀ q ∈ sd.current_stroke_points, q.event_type = none) :
    (sd.finalize_current_stroke sqrtQ).completed_strokes =
      sd.completed_strokes ++
        [{ stroke_id := sd.current_stroke_id
           points := sd.current_stroke_points
           start_time := sd.current_stroke_points.headI.timestamp
           end_time := sd.current_stroke_points.getLastI.timestamp
           num_points := sd.current_stroke_points.length
           is_valid := validate_stroke sqrtQ sd.config
             sd.current_stroke_points }] ∧
    (validate_stroke sqrtQ s2.config s2.current_stroke_points = true →
      (s2.finalize_current_stroke sqrtQ).completed_strokes =
        s2.completed_strokes ++
          [{ stroke_id := s2.current_stroke_id
             points := s2.current_stroke_points
             start_time := s2.current_stroke_points.headI.timestamp
             end_time := s2.current_stroke_points.getLastI.timestamp
             num_points := s2.current_stroke_points.length }]) ∧
    (validate_stroke sqrtQ s2.config s2.current_stroke_points = false →
      (s2.finalize_current_stroke sqrtQ).completed_strokes =
        s2.completed_strokes) := by
  refine ⟨?_, ?_, ?_⟩
  · unfold Div.StrokeDetector.finalize_current_stroke
    rw [if_neg hd, if_neg (not_ghost_of_event_none hattr)]
  · intro hv
    unfold P2.StrokeDetector.finalize_current_stroke
    rw [if_neg h2]
    simp [hv]
  · intro hv
    unfold P2.StrokeDetector.finalize_current_stroke
    rw [if_neg h2]
    simp [hv]

/-- Witness for the amended C2 at concrete inputs. -/
theorem C2_push_regardless_of_validity_witness :
    (sampleS2.current_stroke_points ≠ []) ∧
    (sampleSd.current_stroke_points ≠ []) ∧
    (∀ q ∈ sampleSd.current_stroke_points, q.event_type = none) ∧
    ((sampleSd.finalize_current_stroke sqrtZero).completed_strokes =
      sampleSd.completed_strokes ++
        [{ stroke_id := sampleSd.current_stroke_id
           points := sampleSd.current_stroke_points
           start_time := sampleSd.current_stroke_points.headI.timestamp
           end_time := sampleSd.current_stroke_points.getLastI.timestamp
           num_points := sampleSd.current_stroke_points.length
           is_valid := validate_stroke sqrtZero sampleSd.config
             sampleSd.current_stroke_points }] ∧
     (validate_stroke sqrtZero sampleS2.config
        sampleS2.current_stroke_points = true →
       (sampleS2.finalize_current_stroke sqrtZero).completed_strokes =
         sampleS2.completed_strokes ++
           [{ stroke_id := sampleS2.current_stroke_id
              points := sampleS2.current_stroke_points
              start_time := sampleS2.current_stroke_points.headI.timestamp
              end_time := sampleS2.current_stroke_points.getLastI.timestamp
              num_points := sampleS2.current_stroke_points.length }]) ∧
     (validate_stroke sqrtZero sampleS2.config
        sampleS2.current_stroke_points = false →
       (sampleS2.finalize_current_stroke sqrtZero).completed_strokes =
         sampleS2.completed_strokes)) :=
  ⟨by decide, by decide, by decide,
   C2_push_regardless_of_validity sqrtZero sampleS2 sampleSd
     (by decide) (by decide) (by decide)⟩

/-- C3 counterexample: the Phase2 `add_point`, in state `ACTIVE` with a
buffered point at time 0 and an incoming pressure-positive point at
time 2 (gap 2 s, far above 0.5 s), simply appends the point — the
buffer grows to two points and nothing is finalized — refuting the
claim for the Phase2 revision cited by the claim. -/
theorem C3_counterexample :
    sampleS2.current_state = .ACTIVE ∧
    0 < (mkPoint (1/10) 0 (1/2) 2).pressure ∧
    (1/2 : ℚ) < (mkPoint (1/10) 0 (1/2) 2).timestamp -
      sampleS2.current_stroke_points.getLastI.timestamp ∧
    (sampleS2.add_point sqrtZero
      (mkPoint (1/10) 0 (1/2) 2)).current_stroke_points.length = 2 ∧
    (sampleS2.add_point sqrtZero
      (mkPoint (1/10) 0 (1/2) 2)).completed_strokes = [] := by
  refine ⟨rfl, by norm_num [mkPoint], ?_, ?_, ?_⟩
  · norm_num [mkPoint, sampleS2, P2.StrokeDetector.init, List.getLastI]
  · norm_num [sampleS2, mkPoint, P2.StrokeDetector.init,
      P2.StrokeDetector.add_point, setStrokeId]
    decide
  · norm_num [sampleS2, mkPoint, P2.StrokeDetector.init,
      P2.StrokeDetector.add_point, setStrokeId]
    decide

/-- C3 amended: the stale-gap rule holds for the divscreen revision
only: in state `ACTIVE` with a non-empty buffer, a pressure-positive
point whose time gap since the last buffered point exceeds 0.5 s causes
the current buffer to be finalized as-is and a brand-new stroke to be
started with the incoming point as its first point (the Phase2 revision
has no such rule and appends the point instead, as the counterexample
shows). -/
theorem C3_stale_gap_two_transitions (sqrtQ : ℚ → ℚ)
    (sd : Div.StrokeDetector) (p : ProcessedInkPoint)
    (hact : sd.current_state = .ACTIVE)
    (hne : sd.current_stroke_points ≠ [])
    (hp : 0 < p.pressure)
    (hgap : 1/2 < p.timestamp -
      sd.current_stroke_points.getLastI.timestamp) :
    sd.add_point sqrtQ p =
      (sd.finalize_current_stroke sqrtQ).startStroke p ∧
    (sd.add_point sqrtQ p).current_stroke_points =
      [setStrokeId p (sd.finalize_current_stroke sqrtQ).current_stroke_id] ∧
    (sd.add_point sqrtQ p).current_state = .ACTIVE ∧
    (sd.add_point sqrtQ p).completed_strokes =
      (sd.finalize_current_stroke sqrtQ).completed_strokes := by
  have hcr : sd.consistencyReset = sd := by
    unfold Div.StrokeDetector.consistencyReset
    rw [if_neg]
    rintro ⟨-, he⟩
    exact hne he
  have hmain : sd.add_point sqrtQ p =
      (sd.finalize_current_stroke sqrtQ).startStroke p := by
    unfold Div.StrokeDetector.add_point
    rw [if_pos hp, hcr]
    unfold Div.StrokeDetector.addPointPressed
    rw [if_neg (by rw [hact]; exact fun h => StrokeState.noConfusion h),
      if_neg hne, if_pos hgap]
  exact ⟨hmain, by rw [hmain]; rfl, by rw [hmain]; rfl, by rw [hmain]; rfl⟩

/-- Witness for the amended C3 at concrete inputs. -/
theorem C3_stale_gap_two_transitions_witness :
    (sampleSd.current_state = .ACTIVE) ∧
    (sampleSd.current_stroke_points ≠ []) ∧
    (0 < (mkPoint (1/10) 0 (1/2) 2).pressure) ∧
    ((1/2 : ℚ) < (mkPoint (1/10) 0 (1/2) 2).timestamp -
      sampleSd.current_stroke_points.getLastI.timestamp) ∧
    (sampleSd.add_point sqrtZero (mkPoint (1/10) 0 (1/2) 2) =
      (sampleSd.finalize_current_stroke sqrtZero).startStroke
        (mkPoint (1/10) 0 (1/2) 2) ∧
     (sampleSd.add_point sqrtZero
       (mkPoint (1/10) 0 (1/2) 2)).current_stroke_points =
       [setStrokeId (mkPoint (1/10) 0 (1/2) 2)
         (sampleSd.finalize_current_stroke sqrtZero).current_stroke_id] ∧
     (sampleSd.add_point sqrtZero
       (mkPoint (1/10) 0 (1/2) 2)).current_state = .ACTIVE ∧
     (sampleSd.add_point sqrtZero
       (mkPoint (1/10) 0 (1/2) 2)).completed_strokes =
       (sampleSd.finalize_current_stroke sqrtZero).completed_strokes) :=
  ⟨by decide, by decide, by norm_num [mkPoint],
   by norm_num [mkPoint, sampleSd, Div.StrokeDetector.init, List.getLastI],
   C3_stale_gap_two_transitions sqrtZero sampleSd (mkPoint (1/10) 0 (1/2) 2)
     (by decide) (by decide) (by norm_num [mkPoint])
     (by norm_num [mkPoint, sampleSd, Div.StrokeDetector.init,
       List.getLastI])⟩

/-! ### BufferManager (`src/sys_dev/BufferManager.py`) -/

namespace BufferManager

/-- A point buffer created by `create_point_buffer`: a `queue.Queue`
with a maximum size, its contents in FIFO order (head = oldest). -/
structure PointBuffer where
  maxsize : ℕ
  items : List ProcessedInkPoint
deriving DecidableEq, Repr, Inhabited

/-- `queue.Queue.full()`: true when a positive maximum size has been
reached (Python treats `maxsize <= 0` as unbounded). -/
def PointBuffer.isFull (b : PointBuffer) : Prop :=
  0 < b.maxsize ∧ b.maxsize ≤ b.items.length

instance (b : PointBuffer) : Decidable b.isFull := by
  unfold PointBuffer.isFull; infer_instance

/-- The per-buffer counters of `_buffer_stats` updated by
`_update_buffer_stats` (`last_access_time` is wall-clock and not
modelled). -/
structure BufferStatistics where
  total_added : ℕ
  total_removed : ℕ
  total_dropped : ℕ
  peak_size : ℕ
deriving DecidableEq, Repr, Inhabited

def BufferStatistics.init : BufferStatistics :=
  { total_added := 0, total_removed := 0, total_dropped := 0
    peak_size := 0 }

/-- `_update_buffer_stats(name, 'dropped', 1)` followed by its peak-size
refresh against the buffer's current size. -/
def recordDropped (b : PointBuffer) (st : BufferStatistics) :
    BufferStatistics :=
  { st with total_dropped := st.total_dropped + 1
            peak_size := max st.peak_size b.items.length }

/-- `_update_buffer_stats(name, 'added', 1)` followed by its peak-size
refresh against the buffer's current size. -/
def recordAdded (b : PointBuffer) (st : BufferStatistics) :
    BufferStatistics :=
  { st with total_added := st.total_added + 1
            peak_size := max st.peak_size b.items.length }

/-- The `buffer.get_nowait()` eviction inside `add_point_to_buffer`:
removes the oldest element and counts it as dropped; an empty buffer
(`queue.Empty`) is passed over. -/
def evictOldest (b : PointBuffer) (st : BufferStatistics) :
    PointBuffer × BufferStatistics :=
  match b.items with
  | [] => (b, st)
  | _ :: rest =>
      ({ b with items := rest }, recordDropped { b with items := rest } st)

/-- `BufferManager.add_point_to_buffer` (lines 158-205).  With
`drop_on_full` and a full buffer, one oldest element is evicted
(`get_nowait`, counted as dropped) before the insert; a `put` on a
still-full buffer times out (`queue.Full`), is counted as dropped and
returns `False`; otherwise the point is appended and `True` returned. -/
def add_point_to_buffer (drop_on_full : Bool) (b : PointBuffer)
    (st : BufferStatistics) (p : ProcessedInkPoint) :
    PointBuffer × BufferStatistics × Bool :=
  let evicted : PointBuffer × BufferStatistics :=
    if drop_on_full = true ∧ b.isFull then evictOldest b st else (b, st)
  if evicted.1.isFull then
    (evicted.1, recordDropped evicted.1 evicted.2, false)
  else
    let b2 : PointBuffer := { evicted.1 with items := evicted.1.items ++ [p] }
    (b2, recordAdded b2 evicted.2, true)

/-- A push into a buffer that is not full appends the point and
succeeds, under either policy. -/
lemma add_point_to_buffer_of_not_full (d : Bool) {b : PointBuffer}
    (st : BufferStatistics) (p : ProcessedInkPoint) (h : ¬ b.isFull) :
    add_point_to_buffer d b st p =
      ({ b with items := b.items ++ [p] },
       recordAdded { b with items := b.items ++ [p] } st, true) := by
  unfold add_point_to_buffer
  have h1 : (if d = true ∧ b.isFull then evictOldest b st else (b, st)) =
      (b, st) := if_neg (fun hc => h hc.2)
  rw [h1]
  dsimp only
  rw [if_neg h]

/-- A drop-oldest push into a full buffer `a :: t` evicts `a`, counts
one drop, appends the point and succeeds (provided the one-shorter
buffer is no longer full). -/
lemma add_point_to_buffer_of_full {b : PointBuffer}
    (st : BufferStatistics) (p : ProcessedInkPoint)
    {a : ProcessedInkPoint} {t : List ProcessedInkPoint}
    (h : b.isFull) (hitems : b.items = a :: t)
    (h2 : ¬ ({ b with items := t } : PointBuffer).isFull) :
    add_point_to_buffer true b st p =
      ({ b with items := t ++ [p] },
       recordAdded { b with items := t ++ [p] }
         (recordDropped { b with items := t } st), true) := by
  unfold add_point_to_buffer
  have h1 : (if true = true ∧ b.isFull then evictOldest b st else (b, st)) =
      evictOldest b st := if_pos ⟨rfl, h⟩
  rw [h1]
  unfold evictOldest
  rw [hitems]
  dsimp only
  rw [if_neg h2]

/-- Pushing a whole list through `add_point_to_buffer`, conjoining the
returned success flags. -/
def pushAll (drop_on_full : Bool)
    (acc : PointBuffer × BufferStatistics × Bool)
    (xs : List ProcessedInkPoint) : PointBuffer × BufferStatistics × Bool :=
  xs.foldl (fun a p =>
    let r := add_point_to_buffer drop_on_full a.1 a.2.1 p
    (r.1, r.2.1, a.2.2 && r.2.2)) acc

/-- While the buffer has room for the whole list, `add_point_to_buffer`
appends each point, drops nothing and always succeeds. -/
lemma pushAll_of_room (drop_on_full : Bool)
    (xs : List ProcessedInkPoint) :
    ∀ (b : PointBuffer) (st : BufferStatistics) (ok : Bool),
    b.items.length + xs.length ≤ b.maxsize →
    (pushAll drop_on_full (b, st, ok) xs).1.items = b.items ++ xs ∧
    (pushAll drop_on_full (b, st, ok) xs).1.maxsize = b.maxsize ∧
    (pushAll drop_on_full (b, st, ok) xs).2.1.total_dropped =
      st.total_dropped ∧
    (pushAll drop_on_full (b, st, ok) xs).2.2 = ok := by
  induction xs with
  | nil => intro b st ok _; simp [pushAll]
  | cons p rest ih =>
    intro b st ok hroom
    have hnotfull : ¬ b.isFull := by
      rintro ⟨-, hle⟩
      simp only [List.length_cons] at hroom
      omega
    have hstep := add_point_to_buffer_of_not_full drop_on_full st p hnotfull
    have hfold : pushAll drop_on_full (b, st, ok) (p :: rest) =
        pushAll drop_on_full
          ({ b with items := b.items ++ [p] },
           recordAdded { b with items := b.items ++ [p] } st, ok && true)
          rest := by
      simp only [pushAll, List.foldl_cons, hstep]
    rw [hfold]
    have hroom2 : ({ b with items := b.items ++ [p]} :
        PointBuffer).items.length + rest.length ≤
        ({ b with items := b.items ++ [p]} : PointBuffer).maxsize := by
      simp only [List.length_append, List.length_singleton]
      simp only [List.length_cons] at hroom
      omega
    have hrec := ih { b with items := b.items ++ [p] }
      (recordAdded { b with items := b.items ++ [p] } st) (ok && true) hroom2
    refine ⟨?_, ?_, ?_, ?_⟩
    · rw [hrec.1]; simp
    · exact hrec.2.1
    · rw [hrec.2.2.1]; rfl
    · rw [hrec.2.2.2]; exact Bool.and_true ok

end BufferManager

/-- C5: pushing `N+1` points through `add_point_to_buffer` with the
drop-oldest policy into an empty buffer of capacity `N ≥ 1` leaves
exactly the last `N` points in FIFO order, every push returns success,
and exactly one point is counted as dropped. -/
theorem C5_drop_oldest_policy (cap : ℕ) (hcap : 0 < cap)
    (xs : List ProcessedInkPoint) (hlen : xs.length = cap + 1) :
    (BufferManager.pushAll true
      (⟨cap, []⟩, BufferManager.BufferStatistics.init, true) xs).1.items =
      xs.drop 1 ∧
    (BufferManager.pushAll true
      (⟨cap, []⟩, BufferManager.BufferStatistics.init, true)
        xs).2.1.total_dropped = 1 ∧
    (BufferManager.pushAll true
      (⟨cap, []⟩, BufferManager.BufferStatistics.init, true) xs).2.2 =
      true := by
  rcases List.eq_nil_or_concat xs with rfl | ⟨ys, z, rfl⟩
  · simp at hlen
  · have hys : ys.length = cap := by
      simp only [List.concat_eq_append, List.length_append,
        List.length_singleton] at hlen
      omega
    have hysne : ys ≠ [] := by
      intro h
      rw [h] at hys
      simp only [List.length_nil] at hys
      omega
    simp only [List.concat_eq_append]
    have hsplit : BufferManager.pushAll true
        (⟨cap, []⟩, BufferManager.BufferStatistics.init, true) (ys ++ [z]) =
        BufferManager.pushAll true
          (BufferManager.pushAll true
            (⟨cap, []⟩, BufferManager.BufferStatistics.init, true) ys)
          [z] := by
      unfold BufferManager.pushAll
      rw [List.foldl_append]
    have hfill := BufferManager.pushAll_of_room true ys ⟨cap, []⟩
      BufferManager.BufferStatistics.init true (by simp [hys])
    set mid := BufferManager.pushAll true
      (⟨cap, []⟩, BufferManager.BufferStatistics.init, true) ys with hmid
    have hmid_items : mid.1.items = ys := by
      have := hfill.1
      simpa using this
    have hmid_max : mid.1.maxsize = cap := hfill.2.1
    have hmid_drop : mid.2.1.total_dropped = 0 := by
      have := hfill.2.2.1
      simpa [BufferManager.BufferStatistics.init] using this
    have hmid_ok : mid.2.2 = true := hfill.2.2.2
    have hfull : mid.1.isFull := by
      constructor
      · rw [hmid_max]; exact hcap
      · rw [hmid_max, hmid_items, hys]
    obtain ⟨a, t, hyst⟩ := List.exists_cons_of_ne_nil hysne
    have htail_len : t.length + 1 = cap := by
      rw [hyst] at hys
      simpa using hys
    have hitems : mid.1.items = a :: t := by rw [hmid_items, hyst]
    have hnotfull2 : ¬ ({ mid.1 with items := t } :
        BufferManager.PointBuffer).isFull := by
      rintro ⟨-, hle⟩
      simp only [hmid_max] at hle
      omega
    have hevict := BufferManager.add_point_to_buffer_of_full
      mid.2.1 z hfull hitems hnotfull2
    have hlast : BufferManager.pushAll true mid [z] =
        ({ mid.1 with items := t ++ [z] },
         BufferManager.recordAdded { mid.1 with items := t ++ [z] }
           (BufferManager.recordDropped { mid.1 with items := t } mid.2.1),
         mid.2.2 && true) := by
      simp only [BufferManager.pushAll, List.foldl_cons, List.foldl_nil,
        hevict]
    refine ⟨?_, ?_, ?_⟩
    · rw [hsplit, hlast]
      rw [hyst]
      simp
    · rw [hsplit, hlast]
      simp [BufferManager.recordAdded, BufferManager.recordDropped,
        hmid_drop]
    · rw [hsplit, hlast]
      rw [hmid_ok]
      rfl

/-- Witness for C5: three points through a capacity-2 buffer. -/
theorem C5_drop_oldest_policy_witness :
    (0 < 2) ∧ (samplePts.length = 2 + 1) ∧
    ((BufferManager.pushAll true
      (⟨2, []⟩, BufferManager.BufferStatistics.init, true)
        samplePts).1.items = samplePts.drop 1 ∧
     (BufferManager.pushAll true
      (⟨2, []⟩, BufferManager.BufferStatistics.init, true)
        samplePts).2.1.total_dropped = 1 ∧
     (BufferManager.pushAll true
      (⟨2, []⟩, BufferManager.BufferStatistics.init, true)
        samplePts).2.2 = true) :=
  ⟨by decide, by decide,
   C5_drop_oldest_policy 2 (by decide) samplePts (by decide)⟩

/-! ### FeatureCalculator tremor index
(`src/sys_dev/Phase1/FeatureCalculator.py`, lines 521-587) -/

/-- Control flow of `FeatureCalculator.calculate_tremor_index`: the
first component is the return value where it is fixed by control flow
(`some 0` on the `len(points) < 10` early return; `none` when the value
comes from the scipy Welch spectral computation, which floating-point
numerics put beyond this embedding), and the second component records
whether the Welch power-spectral-density branch on the velocity signal
(`len(velocities) >= 8`) is entered. -/
def calculate_tremor_index_flow (points : List ProcessedInkPoint) :
    Option ℚ × Bool :=
  if points.length < 10 then (some 0, false)
  else
    let velocities := points.map (·.velocity)
    if 8 ≤ velocities.length then (none, true)
    else (none, false)

/-- Eight identical sample points. -/
def eightPts : List ProcessedInkPoint := List.replicate 8 (mkPoint 0 0 1 0)

/-- Ten identical sample points. -/
def tenPts : List ProcessedInkPoint := List.replicate 10 (mkPoint 0 0 1 0)

/-- C6 counterexample: an 8-point stroke satisfies the claim's "at
least 8 points" premise, yet `calculate_tremor_index` returns 0 from
its `len(points) < 10` guard without ever reaching the Welch spectral
step — the spectral threshold is 10 points, not 8. -/
theorem C6_counterexample :
    eightPts.length = 8 ∧
    calculate_tremor_index_flow eightPts = (some 0, false) := by
  decide

/-- C6 amended: for strokes with fewer than 10 points the tremor index
is 0 and the spectral step is skipped; from 10 points on the Welch
power-spectral-density step on the velocity signal is always performed
(the inner `len(velocities) >= 8` guard is then automatically met). -/
theorem C6_tremor_spectral_threshold (pts : List ProcessedInkPoint) :
    (pts.length < 10 → calculate_tremor_index_flow pts = (some 0, false)) ∧
    (10 ≤ pts.length → (calculate_tremor_index_flow pts).2 = true) := by
  constructor
  · intro h
    unfold calculate_tremor_index_flow
    rw [if_pos h]
  · intro h
    unfold calculate_tremor_index_flow
    rw [if_neg (by omega)]
    have h8 : 8 ≤ (pts.map (·.velocity)).length := by
      rw [List.length_map]
      omega
    simp only [h8, if_true]

/-- Witness for the amended C6 at 8 and 10 points. -/
theorem C6_tremor_spectral_threshold_witness :
    (eightPts.length < 10) ∧
    (calculate_tremor_index_flow eightPts = (some 0, false)) ∧
    (10 ≤ tenPts.length) ∧
    ((calculate_tremor_index_flow tenPts).2 = true) :=
  ⟨by decide, (C6_tremor_spectral_threshold eightPts).1 (by decide),
   by decide, (C6_tremor_spectral_threshold tenPts).2 (by decide)⟩

/-! ### PointProcessor quality evaluation
(`src/sys_dev/Phase2/PointProcessor.py`) -/

/-- The `quality_thresholds` dict of `PointProcessor.__init__` /
`_initialize_quality_thresholds`. -/
structure QualityThresholds where
  max_distance_jump : ℚ
  max_velocity_jump : ℚ
  max_pressure_jump : ℚ
  min_time_delta : ℚ
  max_time_delta : ℚ
deriving DecidableEq, Repr, Inhabited

/-- `PointProcessor._calculate_distance`: Euclidean distance between
two processed points (`math.sqrt` abstracted). -/
def calculate_distance (sqrtQ : ℚ → ℚ) (p1 p2 : ProcessedInkPoint) : ℚ :=
  sqrtQ ((p1.x - p2.x) * (p1.x - p2.x) + (p1.y - p2.y) * (p1.y - p2.y))

/-- Coordinate check of `validate_point_quality`: Python's
`if not (...): quality_score *= 0.5` is rendered
`if cond then q else q * (1/2)`. -/
def coordStage (point : ProcessedInkPoint) (q : ℚ) : ℚ :=
  if 0 ≤ point.x ∧ point.x ≤ 1 ∧ 0 ≤ point.y ∧ point.y ≤ 1 then q
  else q * (1/2)

/-- Pressure check of `validate_point_quality` (×0.5 when violated). -/
def pressureStage (point : ProcessedInkPoint) (q : ℚ) : ℚ :=
  if 0 ≤ point.pressure ∧ point.pressure ≤ 1 then q else q * (1/2)

/-- Timestamp check of `validate_point_quality` (×0.3 when
non-positive). -/
def timestampStage (point : ProcessedInkPoint) (q : ℚ) : ℚ :=
  if point.timestamp ≤ 0 then q * (3/10) else q

/-- Distance-jump check of `validate_point_quality` (×0.6 beyond
`max_distance_jump`). -/
def distanceStage (sqrtQ : ℚ → ℚ) (th : QualityThresholds)
    (point last_point : ProcessedInkPoint) (q : ℚ) : ℚ :=
  if th.max_distance_jump < calculate_distance sqrtQ point last_point
    then q * (6/10) else q

/-- Time-delta check of `validate_point_quality` (×0.2 when
non-positive, ×0.7 beyond `max_time_delta`). -/
def timeDeltaStage (th : QualityThresholds)
    (point last_point : ProcessedInkPoint) (q : ℚ) : ℚ :=
  if point.timestamp - last_point.timestamp ≤ 0 then q * (2/10)
  else if th.max_time_delta < point.timestamp - last_point.timestamp
    then q * (7/10) else q

/-- Velocity-jump check of `validate_point_quality` (×0.8, only run
with at least two previous points). -/
def velocityStage (th : QualityThresholds)
    (point : ProcessedInkPoint) (n : ℕ)
    (last_point : ProcessedInkPoint) (q : ℚ) : ℚ :=
  if 2 ≤ n then
    (if th.max_velocity_jump < |point.velocity - last_point.velocity|
      then q * (8/10) else q)
  else q

/-- Pressure-jump check of `validate_point_quality` (×0.9 beyond
`max_pressure_jump`). -/
def pressureJumpStage (th : QualityThresholds)
    (point last_point : ProcessedInkPoint) (q : ℚ) : ℚ :=
  if th.max_pressure_jump < |point.pressure - last_point.pressure|
    then q * (9/10) else q

/-- The three basic value checks of `validate_point_quality` applied in
source order to the initial score 1.0. -/
def basic_quality (point : ProcessedInkPoint) : ℚ :=
  timestampStage point (pressureStage point (coordStage point 1))

/-- The continuity checks of `validate_point_quality` against the last
previous point, applied in source order to the running score `q`. -/
def continuity_quality (sqrtQ : ℚ → ℚ) (th : QualityThresholds)
    (point : ProcessedInkPoint) (previous_points : List ProcessedInkPoint)
    (q : ℚ) : ℚ :=
  pressureJumpStage th point previous_points.getLastI
    (velocityStage th point previous_points.length previous_points.getLastI
      (timeDeltaStage th point previous_points.getLastI
        (distanceStage sqrtQ th point previous_points.getLastI q)))

/-- The `quality_score` local of `PointProcessor.validate_point_quality`
(lines 558-622) just before the final clamp: the basic checks, then —
only when previous points exist — the continuity checks. -/
def quality_score (sqrtQ : ℚ → ℚ) (th : QualityThresholds)
    (point : ProcessedInkPoint)
    (previous_points : List ProcessedInkPoint) : ℚ :=
  if previous_points = [] then basic_quality point
  else continuity_quality sqrtQ th point previous_points
    (basic_quality point)

/-- `PointProcessor.validate_point_quality`: the quality score clamped
into `[0, 1]` by `max(0.0, min(1.0, quality_score))`. -/
def validate_point_quality (sqrtQ : ℚ → ℚ) (th : QualityThresholds)
    (point : ProcessedInkPoint)
    (previous_points : List ProcessedInkPoint) : ℚ :=
  max 0 (min 1 (quality_score sqrtQ th point previous_points))

/-- Spec-side factor: coordinate-bounds discount (×0.5 when violated). -/
def coordFactor (point : ProcessedInkPoint) : ℚ :=
  if 0 ≤ point.x ∧ point.x ≤ 1 ∧ 0 ≤ point.y ∧ point.y ≤ 1 then 1
  else 1/2

/-- Spec-side factor: pressure-bounds discount (×0.5 when violated). -/
def pressureFactor (point : ProcessedInkPoint) : ℚ :=
  if 0 ≤ point.pressure ∧ point.pressure ≤ 1 then 1 else 1/2

/-- Spec-side factor: non-positive absolute timestamp discount (×0.3). -/
def timestampFactor (point : ProcessedInkPoint) : ℚ :=
  if point.timestamp ≤ 0 then 3/10 else 1

/-- Spec-side factor: distance-jump discount (×0.6 when the jump to the
previous point exceeds `max_distance_jump`). -/
def distanceFactor (sqrtQ : ℚ → ℚ) (th : QualityThresholds)
    (point : ProcessedInkPoint) (prev : List ProcessedInkPoint) : ℚ :=
  if prev = [] then 1
  else if th.max_distance_jump <
      calculate_distance sqrtQ point prev.getLastI
    then 6/10 else 1

/-- Spec-side factor: time-delta discount (×0.2 non-positive, ×0.7
oversized). -/
def timeDeltaFactor (th : QualityThresholds) (point : ProcessedInkPoint)
    (prev : List ProcessedInkPoint) : ℚ :=
  if prev = [] then 1
  else if point.timestamp - prev.getLastI.timestamp ≤ 0 then 2/10
  else if th.max_time_delta < point.timestamp - prev.getLastI.timestamp
    then 7/10 else 1

/-- Spec-side factor: velocity-jump discount (×0.8, only checked with
at least two previous points). -/
def velocityFactor (th : QualityThresholds) (point : ProcessedInkPoint)
    (prev : List ProcessedInkPoint) : ℚ :=
  if prev = [] then 1
  else if 2 ≤ prev.length then
    (if th.max_velocity_jump < |point.velocity - prev.getLastI.velocity|
      then 8/10 else 1)
  else 1

/-- Spec-side factor: pressure-jump discount (×0.9). -/
def pressureJumpFactor (th : QualityThresholds)
    (point : ProcessedInkPoint) (prev : List ProcessedInkPoint) : ℚ :=
  if prev = [] then 1
  else if th.max_pressure_jump < |point.pressure - prev.getLastI.pressure|
    then 9/10 else 1

lemma coordStage_eq (point : ProcessedInkPoint) (q : ℚ) :
    coordStage point q = q * coordFactor point := by
  unfold coordStage coordFactor
  split_ifs <;> ring

lemma pressureStage_eq (point : ProcessedInkPoint) (q : ℚ) :
    pressureStage point q = q * pressureFactor point := by
  unfold pressureStage pressureFactor
  split_ifs <;> ring

lemma timestampStage_eq (point : ProcessedInkPoint) (q : ℚ) :
    timestampStage point q = q * timestampFactor point := by
  unfold timestampStage timestampFactor
  split_ifs <;> ring

lemma distanceStage_eq (sqrtQ : ℚ → ℚ) (th : QualityThresholds)
    (point : ProcessedInkPoint) {prev : List ProcessedInkPoint}
    (q : ℚ) (hne : prev ≠ []) :
    distanceStage sqrtQ th point prev.getLastI q =
      q * distanceFactor sqrtQ th point prev := by
  unfold distanceStage distanceFactor
  rw [if_neg hne]
  split_ifs <;> ring

lemma timeDeltaStage_eq (th : QualityThresholds)
    (point : ProcessedInkPoint) {prev : List ProcessedInkPoint}
    (q : ℚ) (hne : prev ≠ []) :
    timeDeltaStage th point prev.getLastI q =
      q * timeDeltaFactor th point prev := by
  unfold timeDeltaStage timeDeltaFactor
  rw [if_neg hne]
  split_ifs <;> ring

lemma velocityStage_eq (th : QualityThresholds)
    (point : ProcessedInkPoint) {prev : List ProcessedInkPoint}
    (q : ℚ) (hne : prev ≠ []) :
    velocityStage th point prev.length prev.getLastI q =
      q * velocityFactor th point prev := by
  unfold velocityStage velocityFactor
  rw [if_neg hne]
  split_ifs <;> ring

lemma pressureJumpStage_eq (th : QualityThresholds)
    (point : ProcessedInkPoint) {prev : List ProcessedInkPoint}
    (q : ℚ) (hne : prev ≠ []) :
    pressureJumpStage th point prev.getLastI q =
      q * pressureJumpFactor th point prev := by
  unfold pressureJumpStage pressureJumpFactor
  rw [if_neg hne]
  split_ifs <;> ring

/-- C7: the point-quality confidence equals the product of the
per-bound fixed discounts starting from 1.0, that product already lies
in `[0, 1]` (so the final clamp never changes the value), and hence the
returned confidence always lies in `[0, 1]`. -/
theorem C7_confidence_product_in_unit_interval (sqrtQ : ℚ → ℚ)
    (th : QualityThresholds) (point : ProcessedInkPoint)
    (prev : List ProcessedInkPoint) :
    validate_point_quality sqrtQ th point prev =
      coordFactor point * pressureFactor point * timestampFactor point *
      distanceFactor sqrtQ th point prev * timeDeltaFactor th point prev *
      velocityFactor th point prev * pressureJumpFactor th point prev ∧
    validate_point_quality sqrtQ th point prev =
      quality_score sqrtQ th point prev ∧
    0 ≤ validate_point_quality sqrtQ th point prev ∧
    validate_point_quality sqrtQ th point prev ≤ 1 := by
  have hbasic : basic_quality point =
      coordFactor point * pressureFactor point * timestampFactor point := by
    unfold basic_quality
    rw [coordStage_eq, pressureStage_eq, timestampStage_eq]
    ring
  have hcont : ∀ q : ℚ, prev ≠ [] →
      continuity_quality sqrtQ th point prev q =
      q * distanceFactor sqrtQ th point prev * timeDeltaFactor th point prev *
      velocityFactor th point prev * pressureJumpFactor th point prev := by
    intro q hne
    unfold continuity_quality
    rw [distanceStage_eq sqrtQ th point q hne,
      timeDeltaStage_eq th point _ hne, velocityStage_eq th point _ hne,
      pressureJumpStage_eq th point _ hne]
  have hprod : quality_score sqrtQ th point prev =
      coordFactor point * pressureFactor point * timestampFactor point *
      distanceFactor sqrtQ th point prev * timeDeltaFactor th point prev *
      velocityFactor th point prev * pressureJumpFactor th point prev := by
    unfold quality_score
    by_cases hprev : prev = []
    · rw [if_pos hprev, hbasic]
      unfold distanceFactor timeDeltaFactor velocityFactor
        pressureJumpFactor
      rw [if_pos hprev, if_pos hprev, if_pos hprev, if_pos hprev]
      ring
    · rw [if_neg hprev, hcont _ hprev, hbasic]
  have hc1 : 0 ≤ coordFactor point ∧ coordFactor point ≤ 1 := by
    unfold coordFactor; split_ifs <;> norm_num
  have hc2 : 0 ≤ pressureFactor point ∧ pressureFactor point ≤ 1 := by
    unfold pressureFactor; split_ifs <;> norm_num
  have hc3 : 0 ≤ timestampFactor point ∧ timestampFactor point ≤ 1 := by
    unfold timestampFactor; split_ifs <;> norm_num
  have hc4 : 0 ≤ distanceFactor sqrtQ th point prev ∧
      distanceFactor sqrtQ th point prev ≤ 1 := by
    unfold distanceFactor; split_ifs <;> norm_num
  have hc5 : 0 ≤ timeDeltaFactor th point prev ∧
      timeDeltaFactor th point prev ≤ 1 := by
    unfold timeDeltaFactor; split_ifs <;> norm_num
  have hc6 : 0 ≤ velocityFactor th point prev ∧
      velocityFactor th point prev ≤ 1 := by
    unfold velocityFactor; split_ifs <;> norm_num
  have hc7 : 0 ≤ pressureJumpFactor th point prev ∧
      pressureJumpFactor th point prev ≤ 1 := by
    unfold pressureJumpFactor; split_ifs <;> norm_num
  have hbounds : 0 ≤ quality_score sqrtQ th point prev ∧
      quality_score sqrtQ th point prev ≤ 1 := by
    rw [hprod]
    constructor
    · exact mul_nonneg (mul_nonneg (mul_nonneg (mul_nonneg
        (mul_nonneg (mul_nonneg hc1.1 hc2.1) hc3.1) hc4.1) hc5.1)
        hc6.1) hc7.1
    · have h12 : coordFactor point * pressureFactor point ≤ 1 :=
        mul_le_one₀ hc1.2 hc2.1 hc2.2
      have h13 := mul_le_one₀ h12 hc3.1 hc3.2
      have h14 := mul_le_one₀ h13 hc4.1 hc4.2
      have h15 := mul_le_one₀ h14 hc5.1 hc5.2
      have h16 := mul_le_one₀ h15 hc6.1 hc6.2
      exact mul_le_one₀ h16 hc7.1 hc7.2
  have hclamp : validate_point_quality sqrtQ th point prev =
      quality_score sqrtQ th point prev := by
    unfold validate_point_quality
    rw [min_eq_right hbounds.2, max_eq_right hbounds.1]
  refine ⟨?_, hclamp, ?_, ?_⟩
  · rw [hclamp, hprod]
  · rw [hclamp]; exact hbounds.1
  · rw [hclamp]; exact hbounds.2

/-! ### PointProcessor raw-point pipeline
(`src/sys_dev/Phase2/PointProcessor.py`) -/

/-- The `PointProcessor` attributes read by `process_raw_point`:
configuration, device bounds and the quality thresholds as they stand
after `initialize()` ran `_initialize_quality_thresholds` against the
Phase2 config (which defines all five threshold attributes). -/
structure PointProcessor where
  config : ProcessingConfig
  device_bounds : ℚ × ℚ × ℚ × ℚ
  quality_thresholds : QualityThresholds
deriving DecidableEq, Repr, Inhabited

/-- Processor state for a given config: default device bounds
`(0, 0, 1000, 1000)` and config-derived thresholds. -/
def PointProcessor.ofConfig (cfg : ProcessingConfig) : PointProcessor :=
  { config := cfg
    device_bounds := (0, 0, 1000, 1000)
    quality_thresholds :=
      { max_distance_jump := cfg.max_point_distance
        max_velocity_jump := cfg.max_velocity_jump
        max_pressure_jump := cfg.max_pressure_jump
        min_time_delta := cfg.min_time_delta
        max_time_delta := cfg.max_time_delta } }

/-- `PointProcessor.normalize_coordinates` (lines 281-308): degenerate
bounds yield `(0.5, 0.5)`, otherwise each coordinate is scaled into the
bounds rectangle and clamped to `[0, 1]`. -/
def normalize_coordinates (device_bounds : ℚ × ℚ × ℚ × ℚ)
    (x y : ℚ) : ℚ × ℚ :=
  let min_x := device_bounds.1
  let min_y := device_bounds.2.1
  let max_x := device_bounds.2.2.1
  let max_y := device_bounds.2.2.2
  let width := max_x - min_x
  let height := max_y - min_y
  if width ≤ 0 ∨ height ≤ 0 then (1/2, 1/2)
  else (max 0 (min 1 ((x - min_x) / width)),
        max 0 (min 1 ((y - min_y) / height)))

/-- `PointProcessor.calculate_velocity` (lines 310-340): Euclidean
distance over the time delta, 0 for a non-positive delta. -/
def calculate_velocity (sqrtQ : ℚ → ℚ)
    (current_point previous_point : ProcessedInkPoint) : ℚ :=
  if current_point.timestamp - previous_point.timestamp ≤ 0 then 0
  else
    sqrtQ ((current_point.x - previous_point.x) *
        (current_point.x - previous_point.x) +
      (current_point.y - previous_point.y) *
        (current_point.y - previous_point.y)) /
      (current_point.timestamp - previous_point.timestamp)

/-- `PointProcessor.calculate_acceleration` (lines 342-367). -/
def calculate_acceleration (current_velocity previous_velocity
    time_delta : ℚ) : ℚ :=
  if time_delta ≤ 0 then 0
  else (current_velocity - previous_velocity) / time_delta

/-- `PointProcessor.calculate_direction` (lines 369-396): `math.atan2`
abstracted as `atan2Q`, negative angles shifted by `2π` (`piQ`). -/
def calculate_direction (atan2Q : ℚ → ℚ → ℚ) (piQ : ℚ)
    (current_point previous_point : ProcessedInkPoint) : ℚ :=
  let angle := atan2Q (current_point.y - previous_point.y)
    (current_point.x - previous_point.x)
  if angle < 0 then angle + 2 * piQ else angle

/-- `PointProcessor.calculate_curvature` (lines 398-451): three-point
angle change over the mean arc length, with degenerate-input guards. -/
def calculate_curvature (sqrtQ : ℚ → ℚ) (atan2Q : ℚ → ℚ → ℚ)
    (points : List ProcessedInkPoint) (center_index : ℕ) : ℚ :=
  if center_index = 0 ∨ points.length - 1 ≤ center_index ∨
      points.length < 3 then 0
  else
    let p1 := points.getD (center_index - 1) default
    let p2 := points.getD center_index default
    let p3 := points.getD (center_index + 1) default
    let v1x := p2.x - p1.x
    let v1y := p2.y - p1.y
    let v2x := p3.x - p2.x
    let v2y := p3.y - p2.y
    let len1 := sqrtQ (v1x * v1x + v1y * v1y)
    let len2 := sqrtQ (v2x * v2x + v2y * v2y)
    if len1 = 0 ∨ len2 = 0 then 0
    else
      let angle_change := atan2Q (v1x * v2y - v1y * v2x)
        (v1x * v2x + v1y * v2y)
      let arc_length := (len1 + len2) / 2
      if arc_length = 0 then 0
      else |angle_change| / arc_length

/-- `PointProcessor._calculate_derived_features` (lines 643-676):
sequentially fills velocity, direction, then (with at least two
previous points) acceleration and curvature, then the cumulative
distance. -/
def calculate_derived_features (sqrtQ : ℚ → ℚ) (atan2Q : ℚ → ℚ → ℚ)
    (piQ : ℚ) (point : ProcessedInkPoint)
    (previous_points : List ProcessedInkPoint) : ProcessedInkPoint :=
  if previous_points = [] then point
  else
    let last_point := previous_points.getLastI
    let point1 := { point with
      velocity := calculate_velocity sqrtQ point last_point }
    let point2 := { point1 with
      direction := calculate_direction atan2Q piQ point1 last_point }
    let point3 :=
      if 2 ≤ previous_points.length then
        { point2 with acceleration := (calculate_acceleration
            point2.velocity last_point.velocity
            (point2.timestamp - last_point.timestamp)) }
      else point2
    let point4 :=
      if 2 ≤ previous_points.length then
        { point3 with curvature := (calculate_curvature sqrtQ atan2Q
            (previous_points.drop (previous_points.length - 2) ++ [point3])
            2) }
      else point3
    { point4 with distance_from_start :=
        (last_point.distance_from_start +
          calculate_distance sqrtQ point4 last_point) }

/-- The weighted sums of the `for i, prev_point in
enumerate(reversed(recent_points))` loop of `_apply_point_smoothing`:
element `i` of the reversed window enters with weight `0.5^(i+1)`;
returns (Σ wᵢ·xᵢ, Σ wᵢ·yᵢ, Σ wᵢ). -/
def expWeightedSums : List ProcessedInkPoint → ℚ → ℚ × ℚ × ℚ
  | [], _ => (0, 0, 0)
  | q :: rest, w =>
      let s := expWeightedSums rest (w * (1/2))
      (q.x * w + s.1, q.y * w + s.2.1, w + s.2.2)

/-- `PointProcessor._apply_point_smoothing` (lines 678-703): blends the
point's position with up to 3 recent points under exponential-decay
weights; only the coordinates change. -/
def apply_point_smoothing (point : ProcessedInkPoint)
    (previous_points : List ProcessedInkPoint) : ProcessedInkPoint :=
  if previous_points.length < 2 then point
  else
    let window_size := min 3 previous_points.length
    let recent_points :=
      previous_points.drop (previous_points.length - window_size)
    let s := expWeightedSums recent_points.reverse (1/2)
    let total_weight := 1 + s.2.2
    { point with x := (point.x + s.1) / total_weight
                 y := (point.y + s.2.1) / total_weight }

/-- `PointProcessor._create_fallback_point` (lines 780-803): the
backup point returned by the `except` handler of `process_raw_point`,
with confidence 0.5. -/
def create_fallback_point (proc : PointProcessor) (raw : RawInkPoint) :
    ProcessedInkPoint :=
  let n := normalize_coordinates proc.device_bounds raw.x raw.y
  { x := n.1, y := n.2
    pressure := max 0 (min 1 raw.pressure)
    tilt_x := raw.tilt_x, tilt_y := raw.tilt_y, twist := raw.twist
    timestamp := raw.timestamp
    velocity := 0, acceleration := 0, direction := 0, curvature := 0
    stroke_id := -1, point_index := -1, distance_from_start := 0
    confidence := 1/2, is_interpolated := false, event_type := none }

/-- `PointProcessor.process_raw_point` (lines 203-279).  The whole body
runs inside `try/except`; `internal_failure` models an exception being
raised anywhere in the body, in which case the handler returns the
fallback point.  Otherwise: normalize, build the base point with
clamped pressure and confidence 1.0, derive kinematics when history
exists, score quality, and smooth (coordinates only) when enabled. -/
def process_raw_point (sqrtQ : ℚ → ℚ) (atan2Q : ℚ → ℚ → ℚ) (piQ : ℚ)
    (proc : PointProcessor) (internal_failure : Bool)
    (raw : RawInkPoint)
    (previous_points : List ProcessedInkPoint) : ProcessedInkPoint :=
  if internal_failure = true then create_fallback_point proc raw
  else
    let n := normalize_coordinates proc.device_bounds raw.x raw.y
    let processed_point : ProcessedInkPoint :=
      { x := n.1, y := n.2
        pressure := max 0 (min 1 raw.pressure)
        tilt_x := raw.tilt_x, tilt_y := raw.tilt_y, twist := raw.twist
        timestamp := raw.timestamp
        velocity := 0, acceleration := 0, direction := 0, curvature := 0
        stroke_id := -1, point_index := -1, distance_from_start := 0
        confidence := 1, is_interpolated := false, event_type := none }
    let p2 := if previous_points = [] then processed_point
      else calculate_derived_features sqrtQ atan2Q piQ processed_point
        previous_points
    let p3 := { p2 with confidence := (validate_point_quality sqrtQ
        proc.quality_thresholds p2 previous_points) }
    if proc.config.smoothing_enabled = true ∧ previous_points ≠ [] then
      apply_point_smoothing p3 previous_points
    else p3

/-- Smoothing only rewrites coordinates: confidence is untouched. -/
lemma apply_point_smoothing_confidence (point : ProcessedInkPoint)
    (prev : List ProcessedInkPoint) :
    (apply_point_smoothing point prev).confidence = point.confidence := by
  unfold apply_point_smoothing
  split <;> rfl

/-- `validate_point_quality` is clamped, hence always within `[0,1]`. -/
lemma validate_point_quality_mem_unit (sqrtQ : ℚ → ℚ)
    (th : QualityThresholds) (point : ProcessedInkPoint)
    (prev : List ProcessedInkPoint) :
    0 ≤ validate_point_quality sqrtQ th point prev ∧
    validate_point_quality sqrtQ th point prev ≤ 1 :=
  ⟨le_max_left 0 _, max_le (by norm_num) (min_le_left 1 _)⟩

/-- A degenerate interpretation of `math.atan2` used for witnesses. -/
def atan2Zero : ℚ → ℚ → ℚ := fun _ _ => 0

/-- A processor over the default Phase2 configuration. -/
def sampleProc : PointProcessor := PointProcessor.ofConfig {}

/-- A malformed raw sample: in-bounds coordinates, positive timestamp,
but pressure −5, far outside `[0, 1]`. -/
def rawNegPressure : RawInkPoint :=
  { x := 300, y := 400, pressure := -5, tilt_x := 0, tilt_y := 0
    twist := 0, timestamp := 1, device_id := "pen", button_state := 0 }

/-- C8 counterexample: a malformed raw sample (out-of-range pressure
−5) does not take the fallback path; its pressure is clamped to 0
during normal processing and the returned point has confidence 1.0 —
not the claimed 0.5. -/
theorem C8_counterexample :
    rawNegPressure.pressure < 0 ∧
    (process_raw_point sqrtZero atan2Zero 0 sampleProc false
      rawNegPressure []).pressure = 0 ∧
    (process_raw_point sqrtZero atan2Zero 0 sampleProc false
      rawNegPressure []).confidence = 1 := by
  refine ⟨by norm_num [rawNegPressure], ?_, ?_⟩
  · norm_num [process_raw_point, sampleProc, PointProcessor.ofConfig,
      rawNegPressure, normalize_coordinates, apply_point_smoothing,
      min_def, max_def]
  · norm_num [process_raw_point, sampleProc, PointProcessor.ofConfig,
      rawNegPressure, normalize_coordinates, apply_point_smoothing,
      validate_point_quality, quality_score, basic_quality, coordStage,
      pressureStage, timestampStage, min_def, max_def]

/-- C8 amended: `process_raw_point` is total — every call returns a
processed point — and on the internal-failure (exception) path it
returns the fallback point, whose confidence is 0.5; on every path the
returned confidence lies in `[0, 1]`.  Malformed field values are
clamped/normalized on the ordinary path and may well score confidence
1.0 (see the counterexample); the 0.5 confidence marks only the
exception path. -/
theorem C8_total_with_fallback (sqrtQ : ℚ → ℚ) (atan2Q : ℚ → ℚ → ℚ)
    (piQ : ℚ) (proc : PointProcessor) (fail : Bool) (raw : RawInkPoint)
    (prev : List ProcessedInkPoint) (hf : fail = true) :
    process_raw_point sqrtQ atan2Q piQ proc fail raw prev =
      create_fallback_point proc raw ∧
    (process_raw_point sqrtQ atan2Q piQ proc fail raw prev).confidence =
      1/2 ∧
    (∀ b : Bool,
      0 ≤ (process_raw_point sqrtQ atan2Q piQ proc b raw prev).confidence ∧
      (process_raw_point sqrtQ atan2Q piQ proc b raw prev).confidence
        ≤ 1) := by
  subst hf
  have hfb : process_raw_point sqrtQ atan2Q piQ proc true raw prev =
      create_fallback_point proc raw := by
    unfold process_raw_point
    rw [if_pos rfl]
  refine ⟨hfb, by rw [hfb]; rfl, ?_⟩
  intro b
  cases b
  · unfold process_raw_point
    rw [if_neg (fun h => Bool.noConfusion h)]
    dsimp only
    split
    · rw [apply_point_smoothing_confidence]
      exact validate_point_quality_mem_unit sqrtQ proc.quality_thresholds
        _ prev
    · exact validate_point_quality_mem_unit sqrtQ proc.quality_thresholds
        _ prev
  · rw [hfb]
    constructor <;> norm_num [create_fallback_point]

/-- Witness for the amended C8 at concrete inputs. -/
theorem C8_total_with_fallback_witness :
    ((true : Bool) = true) ∧
    (process_raw_point sqrtZero atan2Zero 0 sampleProc true
      rawNegPressure [] = create_fallback_point sampleProc rawNegPressure ∧
    (process_raw_point sqrtZero atan2Zero 0 sampleProc true
      rawNegPressure []).confidence = 1/2 ∧
    (∀ b : Bool,
      0 ≤ (process_raw_point sqrtZero atan2Zero 0 sampleProc b
        rawNegPressure []).confidence ∧
      (process_raw_point sqrtZero atan2Zero 0 sampleProc b
        rawNegPressure []).confidence ≤ 1)) :=
  ⟨rfl, C8_total_with_fallback sqrtZero atan2Zero 0 sampleProc true
    rawNegPressure [] rfl⟩

/-! ### Pipeline controller
(`src/sys_dev/Phase2/InkProcessingSystemMainController.py`) -/

/-- The controller state touched by `stop_processing`: the processing
flag, the stop event and the owned Phase2 stroke detector (worker
threads and the raw collector are join/IO effects outside the
embedding). -/
structure InkController where
  is_processing : Bool
  stop_event_set : Bool
  stroke_detector : P2.StrokeDetector
deriving DecidableEq, Repr, Inhabited

/-- `InkProcessingSystemMainController.stop_processing` (lines
625-674): an early return when not processing; otherwise any non-empty
in-flight stroke buffer is cleared directly (`current_stroke_points =
[]`, state forced `IDLE` — `finalize_current_stroke` is never called),
then the stop flag and event are set. -/
def stop_processing (c : InkController) : InkController :=
  if c.is_processing = false then c
  else
    let det :=
      if c.stroke_detector.current_stroke_points = [] then
        c.stroke_detector
      else
        { c.stroke_detector with
          current_stroke_points := []
          current_state := .IDLE }
    { c with stroke_detector := det
             is_processing := false
             stop_event_set := true }

/-- A running controller with one in-flight point buffered. -/
def runningController : InkController :=
  { is_processing := true, stop_event_set := false
    stroke_detector := sampleS2 }

/-- C9 counterexample: with a stroke still active (non-empty buffer),
`stop_processing` does not route it through the finalize path: the stroke
is discarded without validation — `completed_strokes` stays empty and
the stroke-id counter stays 0, whereas `finalize_current_stroke` on the
same detector state increments the counter to 1. -/
theorem C9_counterexample :
    runningController.is_processing = true ∧
    runningController.stroke_detector.current_stroke_points ≠ [] ∧
    (stop_processing runningController).stroke_detector.completed_strokes
      = [] ∧
    (stop_processing runningController).stroke_detector.current_stroke_id
      = 0 ∧
    (runningController.stroke_detector.finalize_current_stroke
      sqrtZero).current_stroke_id = 1 := by
  decide

/-- C9 amended: when `stop_processing` runs on an active controller
with a non-empty in-flight stroke buffer, it discards that stroke
directly — the buffer is cleared, the detector state reset to `IDLE`,
and neither the completed-stroke list nor the stroke-id counter changes
(no validation or push happens) — before the workers are signalled to
stop. -/
theorem C9_stop_discards_inflight_stroke (c : InkController)
    (hrun : c.is_processing = true)
    (hne : c.stroke_detector.current_stroke_points ≠ []) :
    (stop_processing c).stroke_detector.current_stroke_points = [] ∧
    (stop_processing c).stroke_detector.current_state = .IDLE ∧
    (stop_processing c).stroke_detector.completed_strokes =
      c.stroke_detector.completed_strokes ∧
    (stop_processing c).stroke_detector.current_stroke_id =
      c.stroke_detector.current_stroke_id ∧
    (stop_processing c).is_processing = false ∧
    (stop_processing c).stop_event_set = true := by
  have hnotfalse : ¬ (c.is_processing = false) := by
    rw [hrun]; exact fun h => Bool.noConfusion h
  unfold stop_processing
  rw [if_neg hnotfalse]
  dsimp only
  rw [if_neg hne]
  exact ⟨rfl, rfl, rfl, rfl, rfl, rfl⟩

/-- Witness for the amended C9 at a concrete running controller. -/
theorem C9_stop_discards_inflight_stroke_witness :
    (runningController.is_processing = true) ∧
    (runningController.stroke_detector.current_stroke_points ≠ []) ∧
    ((stop_processing runningController).stroke_detector.current_stroke_points
       = [] ∧
     (stop_processing runningController).stroke_detector.current_state =
       .IDLE ∧
     (stop_processing runningController).stroke_detector.completed_strokes =
       runningController.stroke_detector.completed_strokes ∧
     (stop_processing runningController).stroke_detector.current_stroke_id =
       runningController.stroke_detector.current_stroke_id ∧
     (stop_processing runningController).is_processing = false ∧
     (stop_processing runningController).stop_event_set = true) :=
  ⟨rfl, by decide,
   C9_stop_discards_inflight_stroke runningController rfl (by decide)⟩

end DigitalDrawing
